import Mathlib

/-!
Verification of the gmailalert OAuth2 credential-acquisition core.

This file embeds, as executable Lean definitions, the parts of the
gmailalert repository that the checked claims concern:

* `OAuth2RedirectServer` — the local HTTP redirect listener
  (src/internal/adapters/emailrepo/gmail/oauth2.go and the identical
  src/internal/gmail/oauth2.go): constructor port validation, the
  redirect request handler with its auth-code / error notification
  channels, and `Shutdown`.
* `receiveAuthCodeHandler` — the plain redirect handler of src/server.go.
* The token-resolution flows: `OAuth2.LoadToken` (adapters version) and
  `gmailOAuth2.token` (the package-level version), over an explicit
  file-system model.
* A JSON codec for the cached credential, modelled from the spec, used
  to settle the save/load round-trip claim.

Channels are modelled by the lists of values a single handled request
sends on them, plus closed-flags for the double-close analysis; Go's
runtime fault on closing an already-closed channel is made explicit as
a `GoPanic` value.
-/

/-- Left brace character, kept out of string literals. -/
def lbrace : Char := Char.ofNat 123

/-- Right brace character, kept out of string literals. -/
def rbrace : Char := Char.ofNat 125

/-- An incoming HTTP request as the handlers see it: the method string and
the decoded query parameters in order of appearance in the query string. -/
structure HttpRequest where
  method : String
  query : List (String × String)
deriving Repr, DecidableEq

/-- Go `url.Values.Get`: the first value associated with the key, or the
empty string when the key is absent. -/
def queryGet (q : List (String × String)) (key : String) : String :=
  match q with
  | [] => ""
  | (k, v) :: rest => if k = key then v else queryGet rest key

/-- The observable result of one call to the redirect handler: HTTP status,
response body, and the values sent on the auth-code and error channels
while handling this request. -/
structure HandlerResult where
  status : Nat
  body : String
  authCodeSends : List String
  errorSends : List String
deriving Repr, DecidableEq

/-- Error message for a non-GET request, from the source format string
"request method must be an http get (got %s)". -/
def methodNotAllowedMsg (m : String) : String :=
  "request method must be an http get (got " ++ m ++ ")"

/-- Fixed error message for a missing or mismatched state parameter. -/
def badStateMsg : String :=
  "request must contain a query parameter \"state=state-token\""

/-- Fixed error message for a missing or empty code parameter. -/
def emptyCodeMsg : String :=
  "request must contain a non-empty query parameter \"code\""

/-- Success body written by the handler. -/
def successBody : String :=
  "Successfully read authorization code sent by OAuth2 resource provider!"

/-- OAuth2RedirectServer.Handler from
src/internal/adapters/emailrepo/gmail/oauth2.go (identical in
src/internal/gmail/oauth2.go). `http.Error` writes the message followed
by a newline as the body and sets the status; each error path also sends
the same message on the error channel, and the success path sends the
extracted code on the auth-code channel. -/
def OAuth2RedirectServer.Handler (r : HttpRequest) : HandlerResult :=
  if r.method ≠ "GET" then
    let errMsg := methodNotAllowedMsg r.method
    { status := 405, body := errMsg ++ "\n", authCodeSends := [], errorSends := [errMsg] }
  else
    let stateVal := queryGet r.query ("state")
    if stateVal ≠ "state-token" then
      { status := 400, body := badStateMsg ++ "\n", authCodeSends := [], errorSends := [badStateMsg] }
    else
      let codeVal := queryGet r.query ("code")
      if codeVal = "" then
        { status := 400, body := emptyCodeMsg ++ "\n", authCodeSends := [], errorSends := [emptyCodeMsg] }
      else
        { status := 200, body := successBody, authCodeSends := [codeVal], errorSends := [] }

/-- receiveAuthCodeHandler from src/server.go: the plain redirect handler
with no notification channels; returns status and body. Note its state
error appends the received value ("..., got " + got). -/
def receiveAuthCodeHandler (r : HttpRequest) : Nat × String :=
  if r.method ≠ "GET" then
    (405, "request method must be an HTTP GET, got " ++ r.method ++ "\n")
  else
    let got := queryGet r.query ("state")
    if got ≠ "state-token" then
      (400, "request must contain a query parameter \"state=state-token\", got " ++ got ++ "\n")
    else
      let got2 := queryGet r.query ("code")
      if got2 = "" then
        (400, "request must contain a non-empty query parameter \"code\"" ++ "\n")
      else
        (200, "Authorization Code: " ++ got2)

/-- The redirect listener state: its recorded port and, for the shutdown
analysis, whether each notification channel has been closed. The channels
are created open (buffered, capacity 1) by the constructor. -/
structure OAuth2RedirectServer where
  Port : Int
  authCodesClosed : Bool
  authCodeErrorsClosed : Bool
deriving Repr, DecidableEq

/-- Error message of the constructor for an out-of-range port, from the
source format string "port must be in the range 1024-65535 (got %d)". -/
def invalidPortMsg (port : Int) : String :=
  "port must be in the range 1024-65535 (got " ++ toString port ++ ")"

/-- NewOAuth2RedirectServer from
src/internal/adapters/emailrepo/gmail/oauth2.go: rejects ports outside
1024–65535, otherwise returns a listener recording the port with both
notification channels open. -/
def NewOAuth2RedirectServer (port : Int) : Except String OAuth2RedirectServer :=
  if port < 1024 ∨ port > 65535 then
    .error (invalidPortMsg port)
  else
    .ok { Port := port, authCodesClosed := false, authCodeErrorsClosed := false }

/-- A Go runtime fault observable in this model: `close` of an already
closed channel panics. -/
inductive GoPanic
  | closeOfClosedChannel
deriving Repr, DecidableEq

/-- Go `close` on a channel whose closed-flag is `closed`: panics when the
channel is already closed, otherwise marks it closed. -/
def closeChan (closed : Bool) : Except GoPanic Bool :=
  if closed then .error .closeOfClosedChannel else .ok true

/-- OAuth2RedirectServer.Shutdown from the source: unconditionally closes
the error channel, then the auth-code channel, then gracefully stops the
HTTP server (the HTTP stop is outside this model). The channel closes are
not guarded, so they fault when already closed. -/
def OAuth2RedirectServer.Shutdown (s : OAuth2RedirectServer) :
    Except GoPanic OAuth2RedirectServer := do
  let ec ← closeChan s.authCodeErrorsClosed
  let cc ← closeChan s.authCodesClosed
  .ok { s with authCodeErrorsClosed := ec, authCodesClosed := cc }

/-- Boolean test that `pat` is a leading segment of `s`. -/
def startsWithL : List Char → List Char → Bool
  | _, [] => true
  | [], _ :: _ => false
  | c :: cs, d :: ds => c = d && startsWithL cs ds

/-- Boolean test that `sub` occurs contiguously somewhere inside `s`. -/
def containsL : List Char → List Char → Bool
  | [], sub => sub.isEmpty
  | c :: cs, sub => startsWithL (c :: cs) sub || containsL cs sub

/-- An error message `s` names a value `sub` when `sub` occurs verbatim in
`s`. -/
def containsStr (s sub : String) : Bool :=
  containsL s.data sub.data

/-- The cached credential: access token, token type, refresh token and the
RFC3339 expiry timestamp, as in the serialized oauth2 token record. -/
structure Token where
  accessToken : String
  tokenType : String
  refreshToken : String
  expiry : String
deriving Repr, DecidableEq

/-- Modelled from the spec: JSON string escaping of the standard-library
codec (not under src/), on the quote and backslash characters; all other
characters in the supported (plain) range pass through unchanged. -/
def escapeChar (c : Char) : List Char :=
  if c = '"' then ['\\', '"']
  else if c = '\\' then ['\\', '\\']
  else [c]

/-- Escape every character of a string body. -/
def escapeStr : List Char → List Char
  | [] => []
  | c :: cs => escapeChar c ++ escapeStr cs

/-- Modelled from the spec: the JSON string scanner of the codec. Consumes
characters up to and including an unescaped closing quote, undoing the
escapes, and returns the string body together with the unconsumed tail. -/
def scanString : List Char → Option (List Char × List Char)
  | [] => none
  | c :: cs =>
    if c = '"' then some ([], cs)
    else if c = '\\' then
      match cs with
      | [] => none
      | d :: ds => (scanString ds).map (fun p => (d :: p.1, p.2))
    else (scanString cs).map (fun p => (c :: p.1, p.2))

/-- Consume the exact literal `lit` from the front of `s`, returning the
rest, or `none` when `s` does not start with `lit`. -/
def dropLit : List Char → List Char → Option (List Char)
  | [], s => some s
  | _ :: _, [] => none
  | l :: ls, c :: cs => if c = l then dropLit ls cs else none

/-- Leading literal of the serialized credential, up to the opening quote
of the access-token value. -/
def hdLit : List Char :=
  lbrace :: '"' :: ("access_token").data ++ ['"', ':', '"']

/-- Separator literal between a closed field value and the opening quote
of the field named `name`. -/
def sepLit (name : String) : List Char :=
  ',' :: '"' :: name.data ++ ['"', ':', '"']

/-- Trailing literal after the last field value: the closing brace and the
newline appended by the encoder. -/
def tlLit : List Char := [rbrace, '\n']

/-- Modelled from the spec: the JSON serialization of the cached
credential produced by the standard-library encoder (not under src/) —
a one-line JSON document with the four credential fields in order,
string values escaped, a trailing newline appended. -/
def encodeToken (t : Token) : List Char :=
  hdLit ++ escapeStr t.accessToken.data ++ '"' ::
    (sepLit ("token_type") ++ escapeStr t.tokenType.data ++ '"' ::
      (sepLit ("refresh_token") ++ escapeStr t.refreshToken.data ++ '"' ::
        (sepLit ("expiry") ++ escapeStr t.expiry.data ++ '"' :: tlLit)))

/-- Modelled from the spec: the JSON decoding of the cached credential by
the standard-library decoder (not under src/), on the canonical encoder
image: the four fields in order, nothing after the closing brace and
newline. -/
def decodeToken (s : List Char) : Option Token :=
  (dropLit hdLit s).bind fun s1 =>
  (scanString s1).bind fun p1 =>
  (dropLit (sepLit ("token_type")) p1.2).bind fun s2 =>
  (scanString s2).bind fun p2 =>
  (dropLit (sepLit ("refresh_token")) p2.2).bind fun s3 =>
  (scanString s3).bind fun p3 =>
  (dropLit (sepLit ("expiry")) p3.2).bind fun s4 =>
  (scanString s4).bind fun p4 =>
  (dropLit tlLit p4.2).bind fun s5 =>
  if s5 = [] then some ⟨⟨p1.1⟩, ⟨p2.1⟩, ⟨p3.1⟩, ⟨p4.1⟩⟩ else none

/-- Characters within the faithfulness domain of the codec model: no
control characters and none of the HTML-escaped characters, which the
real encoder would turn into unicode escapes. -/
def plainChar (c : Char) : Bool :=
  32 ≤ c.toNat && c ≠ '<' && c ≠ '>' && c ≠ '&'

/-- A string all of whose characters are plain. -/
def plainStr (s : String) : Bool := s.data.all plainChar

/-- A credential all of whose fields are plain strings. -/
def plainToken (t : Token) : Bool :=
  plainStr t.accessToken && plainStr t.tokenType &&
    plainStr t.refreshToken && plainStr t.expiry

/-- The local file system as the token store sees it: a map from path to
file contents, `none` meaning the file does not exist. -/
def FS : Type := String → Option (List Char)

/-- localToken from the package-level flow (gmailOAuth2.localToken):
open the token file and JSON-decode a credential from it, with distinct
open and decode errors. -/
def localToken (fs : FS) (file : String) : Except String Token :=
  match fs file with
  | none => .error ("got error opening gmail oauth2 token file " ++ file)
  | some contents =>
    match decodeToken contents with
    | none => .error ("got error json-decoding gmail oauth2 token")
    | some t => .ok t

/-- saveToken from the package-level flow: create-or-truncate the file
and write the encoded credential into it; fails when the path is not
writable. `writable` models which paths `os.OpenFile` can open for
writing. -/
def saveToken (writable : String → Bool) (fs : FS) (file : String) (t : Token) :
    Except String FS :=
  if writable file then
    .ok (fun p => if p = file then some (encodeToken t) else fs p)
  else
    .error ("got error opening file " ++ file ++ " to save gmail oauth2 token into")

/-- Default token file name used when none is configured. -/
def defaultTokenFile : String := "token.json"

/-- Result of one run of the package-level token resolution: the returned
credential or error, whether a persistence attempt was made, and the file
system afterwards. -/
structure TokenOutcome where
  result : Except String Token
  saveAttempted : Bool
  fs : FS

/-- gmailOAuth2.token from the package-level flow: try the local token
file first and return its credential on success; otherwise take the
remotely exchanged credential, attempt to persist it (logging but
swallowing any persistence failure), and return it. `remote` is the
outcome of the remote exchange leg. -/
def gmailOAuth2.token (writable : String → Bool) (fs : FS) (tokenFile : String)
    (remote : Except String Token) : TokenOutcome :=
  match localToken fs tokenFile with
  | .ok tok => { result := .ok tok, saveAttempted := false, fs := fs }
  | .error _ =>
    match remote with
    | .error e =>
      { result := .error ("got error when remotely fetching gmail oauth2 token: " ++ e),
        saveAttempted := false, fs := fs }
    | .ok tok =>
      let file := if tokenFile = "" then defaultTokenFile else tokenFile
      match saveToken writable fs file tok with
      | .error _ => { result := .ok tok, saveAttempted := true, fs := fs }
      | .ok fs2 => { result := .ok tok, saveAttempted := true, fs := fs2 }

/-- Outcome of the redirect leg as the select over the two notification
channels observes it: either an auth code or an error. -/
inductive RedirectOutcome
  | code (c : String)
  | failure (e : String)

/-- Environment of the remote exchange leg: what the redirect select
receives, and the provider's response to the code-for-token exchange. -/
structure RemoteEnv where
  outcome : RedirectOutcome
  exchange : String → Except String Token

/-- Externally visible effects of the token resolution flow, recorded in
order: starting the redirect listener and calling the provider's token
exchange endpoint. -/
inductive Effect
  | startListener (port : Int)
  | exchangeCall (code : String)
deriving Repr, DecidableEq

/-- OAuth2.loadRemoteToken from the adapters flow: construct the redirect
listener (failing on an invalid port before anything starts), start it in
the background, wait on the code/error select, and exchange a received
code for a credential. -/
def OAuth2.loadRemoteToken (port : Int) (env : RemoteEnv) :
    Except String Token × List Effect :=
  match NewOAuth2RedirectServer port with
  | .error e => (.error e, [])
  | .ok _ =>
    match env.outcome with
    | .failure e => (.error e, [.startListener port])
    | .code c =>
      match env.exchange c with
      | .error e => (.error e, [.startListener port, .exchangeCall c])
      | .ok tok => (.ok tok, [.startListener port, .exchangeCall c])

/-- OAuth2.loadLocalToken from the adapters flow: open the token file and
decode a credential from it. The decoder is a parameter at the external
JSON-codec boundary. -/
def OAuth2.loadLocalToken (decode : List Char → Option Token) (fs : FS)
    (tokenFile : String) : Except String Token :=
  match fs tokenFile with
  | none => .error ("open " ++ tokenFile ++ ": no such file or directory")
  | some contents =>
    match decode contents with
    | none => .error ("got error json-decoding oauth2 token")
    | some tok => .ok tok

/-- OAuth2.LoadToken from the adapters flow: try the local token file
first and return its credential with no external effects; only on a local
failure fall back to the remote exchange leg. -/
def OAuth2.LoadToken (decode : List Char → Option Token) (fs : FS)
    (tokenFile : String) (port : Int) (env : RemoteEnv) :
    Except String Token × List Effect :=
  match OAuth2.loadLocalToken decode fs tokenFile with
  | .ok tok => (.ok tok, [])
  | .error _ => OAuth2.loadRemoteToken port env

/-- GmailClientConfig from the package-level flow, with the `io.Reader`
user-input source modelled by its presence (non-nil-ness). -/
structure GmailClientConfig where
  CredentialsFile : String
  TokenFile : String
  UserInputPresent : Bool
  RedirectSvrPort : Int
deriving Repr, DecidableEq

/-- GmailClientConfig.OK from the package-level flow: `none` when the
configuration passes validation, otherwise the validation error message.
The port check only rejects ports below 1. -/
def GmailClientConfig.OK (g : GmailClientConfig) : Option String :=
  if g.CredentialsFile = "" then some ("credentials file name must not be empty")
  else if !g.UserInputPresent then some ("user input reader must not be nil")
  else if g.RedirectSvrPort < 1 then some ("redirect server port must not be negative")
  else none

/-- getAuthCode from the package-level flow: validate the authorization
URL, the user-input source and the port (rejecting only ports below 1),
then start the plain redirect server and read the code the user types.
`authURLValid` models `url.ParseRequestURI` succeeding and `userEntry`
the outcome of reading from the user-input source. -/
def getAuthCode (authURLValid : Bool) (userInputPresent : Bool)
    (redirectSvrPort : Int) (userEntry : Option String) : Except String String :=
  if !authURLValid then .error ("got error parsing url")
  else if !userInputPresent then .error ("user input must be non-nil")
  else if redirectSvrPort < 1 then .error ("redirect server port must be a positive number")
  else
    match userEntry with
    | none => .error ("got error reading auth code from user input")
    | some code => .ok code

/-! Helper lemmas: the substring test and the codec round-trip. -/

theorem startsWithL_append (m b : List Char) : startsWithL (m ++ b) m = true := by
  induction m with
  | nil => cases b <;> simp [startsWithL]
  | cons c cs ih => simp [startsWithL, ih]

theorem containsL_of_containsL (a s sub : List Char)
    (h : containsL s sub = true) : containsL (a ++ s) sub = true := by
  induction a with
  | nil => simpa using h
  | cons c cs ih =>
    simp only [List.cons_append, containsL, Bool.or_eq_true]
    exact Or.inr ih

theorem containsL_self_append (m b : List Char) : containsL (m ++ b) m = true := by
  cases m with
  | nil =>
    cases b with
    | nil => simp [containsL, List.isEmpty]
    | cons c cs => simp [containsL, startsWithL]
  | cons c cs =>
    simp only [List.cons_append, containsL, Bool.or_eq_true]
    exact Or.inl (startsWithL_append (c :: cs) b)

theorem containsL_append_self_append (a m b : List Char) :
    containsL (a ++ (m ++ b)) m = true :=
  containsL_of_containsL a (m ++ b) m (containsL_self_append m b)

theorem containsStr_append (a m b : String) : containsStr (a ++ m ++ b) m = true := by
  have h : (a ++ m ++ b).data = a.data ++ (m.data ++ b.data) := by
    simp [String.data_append, List.append_assoc]
  simp only [containsStr, h]
  exact containsL_append_self_append a.data m.data b.data

theorem dropLit_append (lit rest : List Char) : dropLit lit (lit ++ rest) = some rest := by
  induction lit with
  | nil => simp [dropLit]
  | cons l ls ih => simp [dropLit, ih]

theorem dropLit_self (lit : List Char) : dropLit lit lit = some [] := by
  simpa using dropLit_append lit []

theorem scanString_quote (cs : List Char) : scanString ('"' :: cs) = some ([], cs) := by
  rw [scanString.eq_def]
  simp

theorem scanString_backslash (d : Char) (ds : List Char) :
    scanString ('\\' :: d :: ds) = (scanString ds).map (fun p => (d :: p.1, p.2)) := by
  rw [scanString.eq_def]
  simp

theorem scanString_other (c : Char) (cs : List Char) (hq : c ≠ '"') (hb : c ≠ '\\') :
    scanString (c :: cs) = (scanString cs).map (fun p => (c :: p.1, p.2)) := by
  rw [scanString.eq_def]
  simp [hq, hb]

theorem scanString_escape (s rest : List Char) :
    scanString (escapeStr s ++ '"' :: rest) = some (s, rest) := by
  induction s with
  | nil => simpa [escapeStr] using scanString_quote rest
  | cons c cs ih =>
    by_cases hq : c = '"'
    · subst hq
      simp [escapeStr, escapeChar, scanString_backslash, ih]
    · by_cases hb : c = '\\'
      · subst hb
        simp [escapeStr, escapeChar, scanString_backslash, ih]
      · simp [escapeStr, escapeChar, hq, hb, scanString_other c _ hq hb, ih]

theorem decodeToken_encodeToken (t : Token) : decodeToken (encodeToken t) = some t := by
  simp only [decodeToken, encodeToken, List.append_assoc, dropLit_append,
    Option.some_bind, scanString_escape, dropLit_self]
  rfl

/-! Claim theorems. -/

/-- C1: every GET request to the redirect listener whose state parameter
resolves to "state-token" and whose code parameter resolves to a
non-empty value C is answered with HTTP 200 and the confirmation body,
exactly one code signal equal to C is sent on the auth-code channel, and
no error signal is produced for that request. -/
theorem claim_C1 (q : List (String × String)) (C : String)
    (hstate : queryGet q ("state") = "state-token")
    (hcode : queryGet q ("code") = C) (hC : C ≠ "") :
    OAuth2RedirectServer.Handler { method := "GET", query := q } =
      { status := 200, body := successBody, authCodeSends := [C], errorSends := [] } := by
  simp [OAuth2RedirectServer.Handler, hstate, hcode, hC]

/-- Witness for C1 at the spec's own example request
`state=state-token&code=ABC123`. -/
theorem claim_C1_witness :
    queryGet [("state", "state-token"), ("code", "ABC123")] ("state") = "state-token" ∧
    queryGet [("state", "state-token"), ("code", "ABC123")] ("code") = "ABC123" ∧
    "ABC123" ≠ "" ∧
    OAuth2RedirectServer.Handler
        { method := "GET", query := [("state", "state-token"), ("code", "ABC123")] } =
      { status := 200, body := successBody, authCodeSends := ["ABC123"], errorSends := [] } :=
  ⟨rfl, rfl, by decide, claim_C1 _ _ rfl rfl (by decide)⟩

/-- C3: every request with a non-GET method M is answered with HTTP 405
and a body naming the rejected method, exactly one error signal
containing that method is sent on the error channel, and no code signal
is sent, regardless of the query parameters. -/
theorem claim_C3 (m : String) (q : List (String × String)) (hm : m ≠ "GET") :
    OAuth2RedirectServer.Handler { method := m, query := q } =
      { status := 405, body := methodNotAllowedMsg m ++ "\n", authCodeSends := [],
        errorSends := [methodNotAllowedMsg m] } ∧
    containsStr (methodNotAllowedMsg m) m = true := by
  constructor
  · simp [OAuth2RedirectServer.Handler, hm]
  · exact containsStr_append ("request method must be an http get (got ") m (")")

/-- Witness for C3 at a HEAD request carrying valid-looking parameters. -/
theorem claim_C3_witness :
    "HEAD" ≠ "GET" ∧
    (OAuth2RedirectServer.Handler
        { method := "HEAD", query := [("state", "state-token"), ("code", "x")] } =
      { status := 405, body := methodNotAllowedMsg ("HEAD") ++ "\n", authCodeSends := [],
        errorSends := [methodNotAllowedMsg ("HEAD")] } ∧
    containsStr (methodNotAllowedMsg ("HEAD")) ("HEAD") = true) :=
  ⟨by decide, claim_C3 ("HEAD") _ (by decide)⟩

/-- C4: a GET request whose state parameter resolves to anything other
than "state-token" (in particular when absent, since an absent parameter
resolves to the empty string) is answered with HTTP 400 with an error
signal and no code signal; likewise a GET request with a valid state but
an empty or absent code parameter. -/
theorem claim_C4 (q : List (String × String)) :
    (queryGet q ("state") ≠ "state-token" →
      OAuth2RedirectServer.Handler { method := "GET", query := q } =
        { status := 400, body := badStateMsg ++ "\n", authCodeSends := [],
          errorSends := [badStateMsg] }) ∧
    (queryGet q ("state") = "state-token" → queryGet q ("code") = "" →
      OAuth2RedirectServer.Handler { method := "GET", query := q } =
        { status := 400, body := emptyCodeMsg ++ "\n", authCodeSends := [],
          errorSends := [emptyCodeMsg] }) := by
  constructor
  · intro hstate
    simp [OAuth2RedirectServer.Handler, hstate]
  · intro hstate hcode
    simp [OAuth2RedirectServer.Handler, hstate, hcode]

/-- Witness for C4: a GET request missing the state parameter, and a GET
request with a valid state but an empty code parameter. -/
theorem claim_C4_witness :
    (queryGet [("code", "abc")] ("state") ≠ "state-token" ∧
      OAuth2RedirectServer.Handler { method := "GET", query := [("code", "abc")] } =
        { status := 400, body := badStateMsg ++ "\n", authCodeSends := [],
          errorSends := [badStateMsg] }) ∧
    (queryGet [("state", "state-token"), ("code", "")] ("state") = "state-token" ∧
      queryGet [("state", "state-token"), ("code", "")] ("code") = "" ∧
      OAuth2RedirectServer.Handler
          { method := "GET", query := [("state", "state-token"), ("code", "")] } =
        { status := 400, body := emptyCodeMsg ++ "\n", authCodeSends := [],
          errorSends := [emptyCodeMsg] }) :=
  ⟨⟨by decide, (claim_C4 [("code", "abc")]).1 (by decide)⟩,
   ⟨rfl, rfl, (claim_C4 [("state", "state-token"), ("code", "")]).2 rfl rfl⟩⟩

/-- C2: constructing the redirect listener with port p fails with the
invalid-port error exactly when p < 1024 or p > 65535, and for p in
1024–65535 construction succeeds with a listener recording p as its port
and both notification channels open. -/
theorem claim_C2 (p : Int) :
    (p < 1024 ∨ p > 65535 → NewOAuth2RedirectServer p = .error (invalidPortMsg p)) ∧
    (1024 ≤ p → p ≤ 65535 →
      NewOAuth2RedirectServer p =
        .ok { Port := p, authCodesClosed := false, authCodeErrorsClosed := false }) := by
  constructor
  · intro h
    simp [NewOAuth2RedirectServer, h]
  · intro h1 h2
    have h : ¬(p < 1024 ∨ p > 65535) := by omega
    simp [NewOAuth2RedirectServer, h]

/-- Witness for C2 at the test's out-of-range port -1025 and the valid
port 4000. -/
theorem claim_C2_witness :
    NewOAuth2RedirectServer (-1025) = .error (invalidPortMsg (-1025)) ∧
    NewOAuth2RedirectServer 4000 =
      .ok { Port := 4000, authCodesClosed := false, authCodeErrorsClosed := false } :=
  ⟨(claim_C2 (-1025)).1 (by decide), (claim_C2 4000).2 (by decide) (by decide)⟩

/-- Counterexample to C5 as stated: on a freshly constructed listener a
first shutdown closes both channels, and a second shutdown call runs
`close` on an already-closed channel, which is a Go runtime panic — so
shutdown is not idempotent. -/
theorem claim_C5_counterexample :
    NewOAuth2RedirectServer 9001 =
      .ok { Port := 9001, authCodesClosed := false, authCodeErrorsClosed := false } ∧
    OAuth2RedirectServer.Shutdown
        { Port := 9001, authCodesClosed := false, authCodeErrorsClosed := false } =
      .ok { Port := 9001, authCodesClosed := true, authCodeErrorsClosed := true } ∧
    OAuth2RedirectServer.Shutdown
        { Port := 9001, authCodesClosed := true, authCodeErrorsClosed := true } =
      .error .closeOfClosedChannel := by
  refine ⟨rfl, rfl, rfl⟩

/-- C5 as amended: calling shutdown exactly once on a listener whose
channels are still open closes both notification channels and completes
without fault, but a second shutdown call faults with a double-close
panic — shutdown is safe once and is not idempotent. -/
theorem claim_C5_amended (s : OAuth2RedirectServer)
    (h1 : s.authCodesClosed = false) (h2 : s.authCodeErrorsClosed = false) :
    OAuth2RedirectServer.Shutdown s =
      .ok { s with authCodesClosed := true, authCodeErrorsClosed := true } ∧
    OAuth2RedirectServer.Shutdown
        { s with authCodesClosed := true, authCodeErrorsClosed := true } =
      .error .closeOfClosedChannel := by
  obtain ⟨P, ac, ec⟩ := s
  simp only at h1 h2
  subst h1
  subst h2
  exact ⟨rfl, rfl⟩

/-- Witness for the amended C5 on the freshly constructed listener for
port 9001. -/
theorem claim_C5_witness :
    OAuth2RedirectServer.Shutdown
        { Port := 9001, authCodesClosed := false, authCodeErrorsClosed := false } =
      .ok { Port := 9001, authCodesClosed := true, authCodeErrorsClosed := true } ∧
    OAuth2RedirectServer.Shutdown
        { Port := 9001, authCodesClosed := true, authCodeErrorsClosed := true } =
      .error .closeOfClosedChannel :=
  claim_C5_amended
    { Port := 9001, authCodesClosed := false, authCodeErrorsClosed := false } rfl rfl

/-- Counterexample to C9 as stated: a GET request whose state parameter
is "deadbeef" is rejected with an error signal whose message is the fixed
state-rejection string, and that message does not contain the received
value "deadbeef" — so not every error carries its triggering value. -/
theorem claim_C9_counterexample :
    (OAuth2RedirectServer.Handler
        { method := "GET", query := [("state", "deadbeef")] }).errorSends = [badStateMsg] ∧
    containsStr badStateMsg ("deadbeef") = false := by
  refine ⟨by decide, by decide⟩

/-- C9 as amended: the non-GET error names the rejected method and the
invalid-port error names the offending port, but the channel-based
listener's rejected-state error is one fixed message independent of the
received state value; only the plain redirect handler of server.go names
the received state in its response. -/
theorem claim_C9_amended :
    (∀ m : String, containsStr (methodNotAllowedMsg m) m = true) ∧
    (∀ p : Int, containsStr (invalidPortMsg p) (toString p) = true) ∧
    (∀ st : String, st ≠ "state-token" →
      (OAuth2RedirectServer.Handler
          { method := "GET", query := [("state", st)] }).errorSends = [badStateMsg]) ∧
    (∀ st : String, st ≠ "state-token" →
      containsStr ((receiveAuthCodeHandler { method := "GET", query := [("state", st)] }).2)
        st = true) := by
  refine ⟨?_, ?_, ?_, ?_⟩
  · intro m
    exact containsStr_append ("request method must be an http get (got ") m (")")
  · intro p
    exact containsStr_append ("port must be in the range 1024-65535 (got ") (toString p) (")")
  · intro st h
    simp [OAuth2RedirectServer.Handler, queryGet, h]
  · intro st h
    simp only [receiveAuthCodeHandler, queryGet]
    simp [h]
    exact containsStr_append
      ("request must contain a query parameter \"state=state-token\", got ") st ("\n")

/-- Witness for the amended C9 at method HEAD, port 70000 and received
state value "oddvalue". -/
theorem claim_C9_witness :
    containsStr (methodNotAllowedMsg ("HEAD")) ("HEAD") = true ∧
    containsStr (invalidPortMsg 70000) (toString (70000 : Int)) = true ∧
    (OAuth2RedirectServer.Handler
        { method := "GET", query := [("state", "oddvalue")] }).errorSends = [badStateMsg] ∧
    containsStr
      ((receiveAuthCodeHandler { method := "GET", query := [("state", "oddvalue")] }).2)
      ("oddvalue") = true :=
  ⟨claim_C9_amended.1 ("HEAD"), claim_C9_amended.2.1 70000,
   claim_C9_amended.2.2.1 ("oddvalue") (by decide),
   claim_C9_amended.2.2.2 ("oddvalue") (by decide)⟩

/-- Sample credential mirroring the repository's test fixture
testdata/test-oauth2-token.json. -/
def sampleToken : Token :=
  { accessToken := "ab12.gophercd4567", tokenType := "Bearer",
    refreshToken := "1//gopher9876", expiry := "2022-08-16T12:00:42.516357003-04:00" }

/-- A file system holding only the serialized sample credential at
token.json. -/
def sampleFS : FS :=
  fun p => if p = "token.json" then some (encodeToken sampleToken) else none

/-- A remote-exchange environment; its contents are irrelevant to the
claims that use it. -/
def sampleEnv : RemoteEnv :=
  { outcome := .failure "redirect request rejected",
    exchange := fun _ => .error "exchange not reached" }

/-- C6: whenever the token file exists and its contents decode into a
credential, the adapters token resolution returns exactly that credential
and performs no external effect: no redirect listener is started and no
exchange call is made. -/
theorem claim_C6 (decode : List Char → Option Token) (fs : FS) (tokenFile : String)
    (port : Int) (env : RemoteEnv) (s : List Char) (tok : Token)
    (hfile : fs tokenFile = some s) (hdec : decode s = some tok) :
    OAuth2.LoadToken decode fs tokenFile port env = (.ok tok, []) := by
  simp [OAuth2.LoadToken, OAuth2.loadLocalToken, hfile, hdec]

/-- Witness for C6 on the sample credential cached at token.json. -/
theorem claim_C6_witness :
    sampleFS ("token.json") = some (encodeToken sampleToken) ∧
    decodeToken (encodeToken sampleToken) = some sampleToken ∧
    OAuth2.LoadToken decodeToken sampleFS ("token.json") 9999 sampleEnv =
      (.ok sampleToken, []) :=
  ⟨rfl, by decide,
   claim_C6 decodeToken sampleFS ("token.json") 9999 sampleEnv
     (encodeToken sampleToken) sampleToken rfl (by decide)⟩

/-- C7: saving a credential to a path and loading from that path yields
the same credential, and re-saving the loaded credential leaves the file
system unchanged, so the serialized form round-trips byte-for-byte while
the file is unmodified. Restricted to credentials within the codec
model's faithfulness domain. -/
theorem claim_C7 (writable : String → Bool) (fs : FS) (file : String) (t : Token)
    (fs1 : FS) (_hplain : plainToken t = true) (hw : writable file = true)
    (hsave : saveToken writable fs file t = .ok fs1) :
    localToken fs1 file = .ok t ∧ saveToken writable fs1 file t = .ok fs1 := by
  have hfs1 : fs1 = fun p => if p = file then some (encodeToken t) else fs p := by
    have h := hsave
    rw [saveToken, if_pos hw] at h
    exact (Except.ok.inj h).symm
  subst hfs1
  constructor
  · simp [localToken, decodeToken_encodeToken]
  · rw [saveToken, if_pos hw]
    congr 1
    funext p
    by_cases hp : p = file <;> simp [hp]

/-- Witness for C7: saving the sample credential to token.json on an
empty file system and loading it back. -/
theorem claim_C7_witness :
    plainToken sampleToken = true ∧
    (fun _ : String => true) ("token.json") = true ∧
    saveToken (fun _ => true) (fun _ => none) ("token.json") sampleToken = .ok sampleFS ∧
    (localToken sampleFS ("token.json") = .ok sampleToken ∧
      saveToken (fun _ => true) sampleFS ("token.json") sampleToken = .ok sampleFS) :=
  ⟨by decide, rfl, rfl,
   claim_C7 (fun _ => true) (fun _ => none) ("token.json") sampleToken sampleFS
     (by decide) rfl rfl⟩

/-- C8: whenever the local token read fails and the remote exchange
succeeds with a credential, the package-level token resolution attempts
to persist that credential and returns it, for every writability of the
token file — in particular a persistence failure does not fail the
resolution. -/
theorem claim_C8 (writable : String → Bool) (fs : FS) (tokenFile : String)
    (tok : Token) (e0 : String) (hlocal : localToken fs tokenFile = .error e0) :
    (gmailOAuth2.token writable fs tokenFile (.ok tok)).result = .ok tok ∧
    (gmailOAuth2.token writable fs tokenFile (.ok tok)).saveAttempted = true := by
  cases hs : saveToken writable fs (if tokenFile = "" then defaultTokenFile else tokenFile) tok with
  | error e => simp [gmailOAuth2.token, hlocal, hs]
  | ok fs2 => simp [gmailOAuth2.token, hlocal, hs]

/-- Witness for C8 on an empty file system with an unwritable token file:
the remotely exchanged credential is still returned and persistence was
attempted. -/
theorem claim_C8_witness :
    localToken (fun _ => none) ("token.json") =
      .error ("got error opening gmail oauth2 token file token.json") ∧
    ((gmailOAuth2.token (fun _ => false) (fun _ => none) ("token.json")
        (.ok sampleToken)).result = .ok sampleToken ∧
      (gmailOAuth2.token (fun _ => false) (fun _ => none) ("token.json")
        (.ok sampleToken)).saveAttempted = true) :=
  ⟨rfl, claim_C8 (fun _ => false) (fun _ => none) ("token.json") sampleToken _ rfl⟩

/-- C10: the coordinator-level validation accepts every port from 1
through 1023 — GmailClientConfig.OK passes any otherwise-valid
configuration with such a port and getAuthCode does not reject it —
while the listener constructor itself rejects those same ports. -/
theorem claim_C10 (p : Int) (hp1 : 1 ≤ p) (hp2 : p ≤ 1023) :
    (∀ g : GmailClientConfig, g.CredentialsFile ≠ "" → g.UserInputPresent = true →
      g.RedirectSvrPort = p → GmailClientConfig.OK g = none) ∧
    (∀ entry : String, getAuthCode true true p (some entry) = .ok entry) ∧
    NewOAuth2RedirectServer p = .error (invalidPortMsg p) := by
  refine ⟨?_, ?_, ?_⟩
  · intro g hc hu hp
    have hlt : ¬ g.RedirectSvrPort < 1 := by omega
    simp [GmailClientConfig.OK, hc, hu, hlt]
  · intro entry
    have hlt : ¬ p < 1 := by omega
    simp [getAuthCode, hlt]
  · have hcond : p < 1024 ∨ p > 65535 := Or.inl (by omega)
    simp [NewOAuth2RedirectServer, hcond]

/-- Witness for C10 at port 1023 with a concretely valid configuration. -/
theorem claim_C10_witness :
    (1 : Int) ≤ 1023 ∧ (1023 : Int) ≤ 1023 ∧
    GmailClientConfig.OK
        { CredentialsFile := "credentials.json", TokenFile := "token.json",
          UserInputPresent := true, RedirectSvrPort := 1023 } = none ∧
    getAuthCode true true 1023 (some ("abc123")) = .ok "abc123" ∧
    NewOAuth2RedirectServer 1023 = .error (invalidPortMsg 1023) :=
  ⟨by decide, by decide,
   (claim_C10 1023 (by decide) (by decide)).1 _ (by decide) rfl rfl,
   (claim_C10 1023 (by decide) (by decide)).2.1 ("abc123"),
   (claim_C10 1023 (by decide) (by decide)).2.2⟩
